import Mathlib

/-!
Shallow embedding of `rayleigh.py`, a client for the rayleighconnect sensor
API.  The HTTP transport is modelled by a `fetch` function passed explicitly
(the Python `Client.request`); catalogs that the Python code fetches lazily and
memoizes (`Client.devices`, `Device.sensors`) are modelled as already-resolved
fields.  JSON numbers in time-series records are modelled as `Int` (no claim
computes with the values themselves); dates are modelled as already-converted
millisecond epoch integers, matching the source after its
`int(pd.to_datetime(d).timestamp() * 1000)` conversion.  `pd.Timestamp`
conversion of the millisecond column is order- and equality-preserving, so the
index keeps the raw `Int` milliseconds.
-/

namespace Rayleigh

/-- A sensor: `Sensor.params["id"]` and the id of its owning device
(`sensor.device.id` in the source). -/
structure Sensor where
  id : String
  deviceId : String
deriving DecidableEq, Repr

/-- A device: `Device.params["id"]` together with its resolved sensor catalog
(the memoized `Device.sensors` property). -/
structure Device where
  id : String
  sensors : List Sensor
deriving DecidableEq, Repr

/-- One raw time-series record `[timestamp_ms, value_1, ..., value_k]`. -/
abbrev SensorRecord := List Int

/-- The record list of one sensor in a raw response. -/
abbrev SensorData := List SensorRecord

/-- Raw nested JSON response of the data endpoint:
`{device_id: {sensor_id: [[ts, v...], ...]}}`.  Python dicts preserve
insertion order and have unique keys; the association lists keep that order. -/
abbrev Response := List (String × List (String × SensorData))

/-- Embeds `Client.get_devices(device_ids)` (rayleigh.py lines 181-207): empty filter
returns the whole memoized catalog, otherwise the catalog is filtered,
keeping catalog order. -/
def get_devices (devices : List Device) (device_ids : List String) : List Device :=
  if device_ids.isEmpty then
    devices
  else
    devices.filter (fun device => device.id ∈ device_ids)

/-- Embeds `Client.get_device(device_id)` (lines 157-179): `get_devices([device_id])[0]`,
with the `IndexError` on an empty result converted to
`KeyError("device not found")`.  Errors are modelled as the `KeyError`
message string. -/
def get_device (devices : List Device) (device_id : String) : Except String Device :=
  match (get_devices devices [device_id]).head? with
  | some device => .ok device
  | none => .error "device not found"

/-- Embeds `Device.get_sensors(sensor_ids)` (lines 287-313): empty filter returns
all of the device's sensors, otherwise filters them in catalog order. -/
def Device.get_sensors (device : Device) (sensor_ids : List String) : List Sensor :=
  if sensor_ids.isEmpty then
    device.sensors
  else
    device.sensors.filter (fun sensor => sensor.id ∈ sensor_ids)

/-- Embeds `Device.get_sensor(sensor_id)` (lines 263-285): `get_sensors([sensor_id])[0]`
with `IndexError` converted to `KeyError("sensor not found")`. -/
def Device.get_sensor (device : Device) (sensor_id : String) : Except String Sensor :=
  match (device.get_sensors [sensor_id]).head? with
  | some sensor => .ok sensor
  | none => .error "sensor not found"

/-- Embeds `DevicesList.get_sensors(sensor_ids)` (lines 360-391): chains each
device's sensors (full list for an empty filter, otherwise each device's
`get_sensors`) in device order. -/
def DevicesList.get_sensors (devices : List Device) (sensor_ids : List String) : List Sensor :=
  if sensor_ids.isEmpty then
    (devices.map (fun device => device.sensors)).flatten
  else
    (devices.map (fun device => device.get_sensors sensor_ids)).flatten

/-- Errors `SensorList.get_data` can raise: the `IndexError` from `self[0]`
on an empty collection, and the `KeyError("no data for this
device/sensor/datetime combination")` raised when `pd.concat` has no input. -/
inductive DataError where
  | indexError
  | noData
deriving DecidableEq, Repr

/-- One row of the final long-format series: the `(device, sensor, datetime)`
`MultiIndex` entry plus the `value` column. -/
structure Row where
  device : String
  sensor : String
  datetime : Int
  value : Int
deriving DecidableEq, Repr

/-- The `to_query` grouping step (lines 431-433): `defaultdict(list)` keyed by
`sensor.device.id`, appending `sensor.id`.  Python dicts iterate in key
insertion order, so a new device id is appended at the end and an existing
one has the sensor id appended to its group. -/
def insert_query (acc : List (String × List String)) (d s : String) :
    List (String × List String) :=
  match acc with
  | [] => [(d, [s])]
  | (d₀, ss) :: rest =>
      if d₀ = d then (d₀, ss ++ [s]) :: rest else (d₀, ss) :: insert_query rest d s

/-- The grouped `device_id -> [sensor_id]` mapping built from the collection. -/
def to_query (sensors : List Sensor) : List (String × List String) :=
  sensors.foldl (fun acc sensor => insert_query acc sensor.deviceId sensor.id) []

/-- The query string `",".join(f"{device_id}:({','.join(sensor_ids)})" ...)`
(lines 434-437). -/
def query_string (sensors : List Sensor) : String :=
  String.intercalate ","
    ((to_query sensors).map (fun p => p.1 ++ ":(" ++ String.intercalate "," p.2 ++ ")"))

/-- The relative request path, `f"data/{query})"` (line 440).  The source
really does append a closing parenthesis after the query. -/
def data_path (sensors : List Sensor) : String :=
  "data/" ++ query_string sensors ++ ")"

/-- Embeds `loop_through_sensors` (lines 452-456): walks the nested response in
order, yielding `(device_id, sensor_id, sensor_data)` and skipping any
sensor whose record list is empty (falsy). -/
def loop_through_sensors (data : Response) :
    List (String × String × SensorData) :=
  data.flatMap (fun p =>
    p.2.filterMap (fun q => if q.2.isEmpty then none else some (p.1, q.1, q.2)))

/-- Embeds `get_column_headers` (lines 458-462): the arity is read off the FIRST
record only.  Only ever called with non-empty `sensor_data`
(`loop_through_sensors` filters empty lists), so `headD []` models
`sensor_data[0]` exactly on all reachable inputs. -/
def get_column_headers (sensor_id : String) (sensor_data : SensorData) : List String :=
  let num_data_columns := (sensor_data.headD []).length - 1
  if num_data_columns = 1 then
    ["datetime", sensor_id]
  else
    "datetime" :: (List.range num_data_columns).map (fun i => sensor_id ++ "_" ++ toString i)

/-- One `pd.DataFrame(...).melt(id_vars="datetime").assign(device=...)` step
(lines 469-476).  `melt` iterates the value columns in column order and, for
each, keeps the frame's row order, producing a `(datetime, sensor, value)`
row per (value column, record) pair; `assign` tags the device id.  Record
cells are addressed positionally; on the reachable inputs of the claims all
records have the header arity, so `getD _ 0` models the cell lookup (pandas
would pad short ragged rows with NaN and reject long ones, a case no claim
reaches). -/
def melt_frame (device_id sensor_id : String) (sensor_data : SensorData) : List Row :=
  let value_columns := (get_column_headers sensor_id sensor_data).drop 1
  value_columns.enum.flatMap (fun ic =>
    sensor_data.map (fun record =>
      { device := device_id
        sensor := ic.2
        datetime := record.headD 0
        value := record.getD (ic.1 + 1) 0 }))

/-- All rows of the concatenated frame (line 478), before indexing/sorting:
one melted frame per surviving `(device, sensor)` pair, in response order. -/
def raw_rows (data : Response) : List Row :=
  ((loop_through_sensors data).map (fun t => melt_frame t.1 t.2.1 t.2.2)).flatten

/-- The composite sort key used by `set_index(["device", "sensor",
"datetime"]).sort_index()`: lexicographic on (device, sensor, datetime). -/
def rowKey (r : Row) : String ×ₗ String ×ₗ Int :=
  toLex (r.device, toLex (r.sensor, r.datetime))

/-- Row comparison by the composite index key. -/
def rowLE (a b : Row) : Prop :=
  rowKey a ≤ rowKey b

instance : DecidableRel rowLE :=
  fun a b => inferInstanceAs (Decidable (rowKey a ≤ rowKey b))

instance : IsTotal Row rowLE :=
  ⟨fun a b => le_total (rowKey a) (rowKey b)⟩

instance : IsTrans Row rowLE :=
  ⟨fun _ _ _ h h₂ => le_trans h h₂⟩

/-- The reshaping tail of `SensorList.get_data` (lines 452-493): build one
melted frame per non-empty `(device, sensor)` pair, raise the no-data
`KeyError` when `pd.concat` receives no frame at all, then index by
`(device, sensor, datetime)` and sort by that key (`sort_index`; the sort
algorithm only matters up to key order, which insertion sort realises), and
return the `value` series. -/
def reshape (data : Response) : Except DataError (List Row) :=
  let frames := (loop_through_sensors data).map (fun t => melt_frame t.1 t.2.1 t.2.2)
  if frames.isEmpty then
    .error .noData
  else
    .ok (List.insertionSort rowLE frames.flatten)

/-- Embeds `SensorList.get_data(from_date, to_date)` (lines 403-493).  On an empty
collection `self[0]` (line 427) raises `IndexError` before any request is
made; otherwise one batched request is issued for `data_path` with the
millisecond range, and the response is reshaped. -/
def SensorList.get_data (sensors : List Sensor)
    (fetch : String → Int → Int → Response) (from_date to_date : Int) :
    Except DataError (List Row) :=
  match sensors with
  | [] => .error .indexError
  | _ :: _ => reshape (fetch (data_path sensors) from_date to_date)

/-- Embeds `Sensor.get_data(from_date, to_date)` (lines 337-354): literally
`SensorList([self]).get_data(from_date, to_date)`. -/
def Sensor.get_data (sensor : Sensor)
    (fetch : String → Int → Int → Response) (from_date to_date : Int) :
    Except DataError (List Row) :=
  SensorList.get_data [sensor] fetch from_date to_date

/-- Timestamps that end up in output column `c` of device `d`: used to state
the "input timestamps are unique per sensor column" precondition. -/
def column_timestamps (rows : List Row) (d c : String) : List Int :=
  rows.filterMap (fun r =>
    if r.device = d ∧ r.sensor = c then some r.datetime else none)

/-- The `(device, sensor, datetime)` index triple of a row. -/
def indexTriple (r : Row) : String × String × Int :=
  (r.device, r.sensor, r.datetime)

/-! Concrete fixtures used by the witness theorems, mirroring the worked
examples of the library's docstrings (single-column sensor `e1`, three-phase
sensor `p1`, device ids in the `<numeric>@<vendor>` format). -/

/-- A single-column sensor on device `A@x`. -/
def sensorE1 : Sensor := ⟨"e1", "A@x"⟩

/-- A multi-phase sensor on device `A@x`. -/
def sensorP1 : Sensor := ⟨"p1", "A@x"⟩

/-- A sensor on device `B@x`. -/
def sensorS3 : Sensor := ⟨"s3", "B@x"⟩

/-- Device `A@x` with its two sensors. -/
def deviceA : Device := ⟨"A@x", [sensorE1, sensorP1]⟩

/-- Device `B@x` with one sensor. -/
def deviceB : Device := ⟨"B@x", [sensorS3]⟩

/-- A two-device catalog. -/
def catalogW : List Device := [deviceA, deviceB]

/-- A transport that always answers with one record for sensor `e1`. -/
def fetchOne : String → Int → Int → Response :=
  fun _ _ _ => [("A@x", [("e1", [[1000, 5]])])]

/-- A transport that always answers with an empty record list for `e1`. -/
def fetchEmpty : String → Int → Int → Response :=
  fun _ _ _ => [("A@x", [("e1", [])])]

end Rayleigh

namespace Rayleigh

/-! ## Theorems -/

/-- C10: `Sensor.get_data(from_date, to_date)` returns exactly the same
result (value or error) as `SensorList([sensor]).get_data(from_date,
to_date)` on the singleton collection — the source delegates verbatim. -/
theorem C10_singleton_refinement (sensor : Sensor)
    (fetch : String → Int → Int → Response) (from_date to_date : Int) :
    sensor.get_data fetch from_date to_date
      = SensorList.get_data [sensor] fetch from_date to_date :=
  rfl

/-- C9: cross-device batch resolution equals the concatenation, in device
order, of each device's own `get_sensors` result; with an empty filter each
device contributes its full sensor list.  A sensor id present on several
devices therefore yields one result per device. -/
theorem C9_cross_device_concat (devices : List Device) (sensor_ids : List String) :
    DevicesList.get_sensors devices sensor_ids
      = (devices.map (fun device => device.get_sensors sensor_ids)).flatten := by
  unfold DevicesList.get_sensors Device.get_sensors
  cases h : sensor_ids.isEmpty <;> simp [h]

/-- C7 (code behaviour at the failing input): invoking `SensorList.get_data`
on an empty sensor collection raises the `IndexError` coming from `self[0]`
— there is no invalid-argument guard in the source. -/
theorem C7_empty_collection_index_error
    (fetch : String → Int → Int → Response) (from_date to_date : Int) :
    SensorList.get_data [] fetch from_date to_date = .error .indexError :=
  rfl

/-- C8 (code behaviour at the failing input): for devices `A` with sensors
`{s1, s2}` and `B` with `{s3}` the request path groups the sensors as the
spec says but carries a stray trailing parenthesis after the query,
contradicting "no characters appended after the query". -/
theorem C8_trailing_paren :
    data_path [⟨"s1", "A"⟩, ⟨"s2", "A"⟩, ⟨"s3", "B"⟩] = "data/A:(s1,s2),B:(s3))" := by
  decide

/-- C2: for a non-empty record list, the column names depend on the FIRST
record only (any tail gives the same headers); with arity `k` = first record
length − 1, `k = 1` gives the sensor id unchanged and `k > 1` gives
`{sensor_id}_0 .. {sensor_id}_{k-1}` in slot order. -/
theorem C2_column_headers (sensor_id : String) (r : SensorRecord) (rest rest₂ : SensorData) :
    (r.length - 1 = 1 → get_column_headers sensor_id (r :: rest) = ["datetime", sensor_id])
    ∧ (∀ k, r.length = k + 1 → 1 < k →
        get_column_headers sensor_id (r :: rest)
          = "datetime" :: (List.range k).map (fun i => sensor_id ++ "_" ++ toString i))
    ∧ get_column_headers sensor_id (r :: rest) = get_column_headers sensor_id (r :: rest₂) := by
  refine ⟨fun h => ?_, fun k hk h₁ => ?_, rfl⟩
  · simp [get_column_headers, h]
  · have hk₂ : r.length - 1 = k := by omega
    have hne : ¬(k = 1) := by omega
    simp [get_column_headers, hk₂, hne]

/-- Closed witness for C2 at a three-phase record and a single-value record. -/
theorem C2_column_headers_witness :
    get_column_headers "e1" [[1000, 5]] = ["datetime", "e1"]
      ∧ get_column_headers "p1" [[1000, 1, 2, 3]] = ["datetime", "p1_0", "p1_1", "p1_2"] := by
  constructor
  · exact (C2_column_headers "e1" [1000, 5] [] []).1 (by decide)
  · have h := (C2_column_headers "p1" [1000, 1, 2, 3] [] []).2.1 3 (by decide) (by decide)
    rw [h]
    decide

/-- C5: with a non-empty filter, the batch accessors return exactly the
catalog entries whose id is in the filter, as a sublist of the catalog (so
in catalog order, unknown ids silently omitted); with an empty filter they
return the full catalog. -/
theorem C5_batch_filter (devices : List Device) (device : Device) (ids : List String) :
    (ids = [] → get_devices devices ids = devices ∧ device.get_sensors ids = device.sensors)
    ∧ (ids ≠ [] →
        (get_devices devices ids).Sublist devices
        ∧ (∀ d, d ∈ get_devices devices ids ↔ d ∈ devices ∧ d.id ∈ ids)
        ∧ (device.get_sensors ids).Sublist device.sensors
        ∧ (∀ s, s ∈ device.get_sensors ids ↔ s ∈ device.sensors ∧ s.id ∈ ids)) := by
  constructor
  · rintro rfl
    exact ⟨rfl, rfl⟩
  · intro h
    have hne : ids.isEmpty = false := by
      simpa [List.isEmpty_iff] using h
    refine ⟨?_, fun d => ?_, ?_, fun s => ?_⟩
    · simp [get_devices, hne, List.filter_sublist]
    · simp [get_devices, hne, List.mem_filter]
    · simp [Device.get_sensors, hne, List.filter_sublist]
    · simp [Device.get_sensors, hne, List.mem_filter]

/-- Closed witness for C5 on a two-device catalog: an empty filter returns
the whole catalog; the filter `["B@x"]` keeps `B@x` and omits `A@x`. -/
theorem C5_batch_filter_witness :
    get_devices catalogW [] = catalogW
      ∧ deviceB ∈ get_devices catalogW ["B@x"]
      ∧ deviceA ∉ get_devices catalogW ["B@x"] := by
  refine ⟨((C5_batch_filter catalogW deviceA []).1 rfl).1, ?_, ?_⟩
  · exact (((C5_batch_filter catalogW deviceA ["B@x"]).2 (by decide)).2.1 deviceB).2
      ⟨by decide, by decide⟩
  · intro hmem
    have h := (((C5_batch_filter catalogW deviceA ["B@x"]).2 (by decide)).2.1 deviceA).1 hmem
    exact absurd h.2 (by decide)

/-- Helper: the head of a filtered list is `none` exactly when no element
satisfies the filter. -/
theorem head?_filter_eq_none {α : Type} (p : α → Bool) (l : List α) :
    (l.filter p).head? = none ↔ ∀ a ∈ l, ¬p a := by
  rw [List.head?_eq_none_iff, List.filter_eq_nil_iff]

/-- Helper: a `some` head of a filtered list is a member satisfying the
filter. -/
theorem head?_filter_eq_some {α : Type} (p : α → Bool) (l : List α) (a : α)
    (h : (l.filter p).head? = some a) : a ∈ l ∧ p a := by
  have ha : a ∈ l.filter p := by
    cases hl : l.filter p with
    | nil => simp [hl] at h
    | cons b t =>
        rw [hl] at h
        simp only [List.head?_cons, Option.some.injEq] at h
        simp [h]
  simpa using List.mem_filter.mp ha

/-- Helper: when some element satisfies the filter, the filtered list has a
head. -/
theorem head?_filter_isSome {α : Type} (p : α → Bool) (l : List α) (a : α)
    (ha : a ∈ l) (hpa : p a) : ∃ b, (l.filter p).head? = some b := by
  cases hl : l.filter p with
  | nil =>
      rw [List.filter_eq_nil_iff] at hl
      exact absurd hpa (hl a ha)
  | cons b t => exact ⟨b, rfl⟩

/-- Helper: `get_device` succeeds exactly on catalog ids, returns a matching
catalog member, and otherwise fails with the not-found `KeyError`. -/
theorem get_device_spec (devices : List Device) (did : String) :
    (get_device devices did = .error "device not found" ↔ ∀ d ∈ devices, d.id ≠ did)
    ∧ (∀ d, get_device devices did = .ok d → d ∈ devices ∧ d.id = did)
    ∧ ((∃ d ∈ devices, d.id = did) → ∃ d, get_device devices did = .ok d) := by
  have hgd : get_devices devices [did] = devices.filter (fun d => d.id ∈ [did]) := rfl
  refine ⟨?_, fun d h => ?_, fun h => ?_⟩
  · unfold get_device
    rw [hgd]
    cases hl : (devices.filter (fun d => d.id ∈ [did])).head? with
    | none =>
        simp only [true_iff]
        have := (head?_filter_eq_none _ _).mp hl
        intro d hd
        simpa using this d hd
    | some d =>
        simp only [reduceCtorEq, false_iff, not_forall]
        have := head?_filter_eq_some _ _ _ hl
        exact ⟨d, this.1, by simpa using this.2⟩
  · unfold get_device at h
    rw [hgd] at h
    cases hl : (devices.filter (fun d => d.id ∈ [did])).head? with
    | none => rw [hl] at h; simp at h
    | some d₀ =>
        rw [hl] at h
        simp only [Except.ok.injEq] at h
        subst h
        have := head?_filter_eq_some _ _ _ hl
        exact ⟨this.1, by simpa using this.2⟩
  · obtain ⟨d, hd, hid⟩ := h
    obtain ⟨b, hb⟩ := head?_filter_isSome (fun d => d.id ∈ [did]) devices d hd (by simp [hid])
    refine ⟨b, ?_⟩
    unfold get_device
    rw [hgd, hb]

/-- Helper: `Device.get_sensor` succeeds exactly on the device's sensor ids,
returns a matching sensor, and otherwise fails with the not-found
`KeyError`. -/
theorem get_sensor_spec (device : Device) (sid : String) :
    (device.get_sensor sid = .error "sensor not found" ↔ ∀ s ∈ device.sensors, s.id ≠ sid)
    ∧ (∀ s, device.get_sensor sid = .ok s → s ∈ device.sensors ∧ s.id = sid)
    ∧ ((∃ s ∈ device.sensors, s.id = sid) → ∃ s, device.get_sensor sid = .ok s) := by
  have hgs : device.get_sensors [sid] = device.sensors.filter (fun s => s.id ∈ [sid]) := rfl
  refine ⟨?_, fun s h => ?_, fun h => ?_⟩
  · unfold Device.get_sensor
    rw [hgs]
    cases hl : (device.sensors.filter (fun s => s.id ∈ [sid])).head? with
    | none =>
        simp only [true_iff]
        have := (head?_filter_eq_none _ _).mp hl
        intro s hs
        simpa using this s hs
    | some s =>
        simp only [reduceCtorEq, false_iff, not_forall]
        have := head?_filter_eq_some _ _ _ hl
        exact ⟨s, this.1, by simpa using this.2⟩
  · unfold Device.get_sensor at h
    rw [hgs] at h
    cases hl : (device.sensors.filter (fun s => s.id ∈ [sid])).head? with
    | none => rw [hl] at h; simp at h
    | some s₀ =>
        rw [hl] at h
        simp only [Except.ok.injEq] at h
        subst h
        have := head?_filter_eq_some _ _ _ hl
        exact ⟨this.1, by simpa using this.2⟩
  · obtain ⟨s, hs, hid⟩ := h
    obtain ⟨b, hb⟩ := head?_filter_isSome (fun s => s.id ∈ [sid]) device.sensors s hs (by simp [hid])
    refine ⟨b, ?_⟩
    unfold Device.get_sensor
    rw [hgs, hb]

/-- C6: the single-item accessors return a matching catalog entry exactly
when the id is present, and fail with the not-found `KeyError` exactly when
it is absent.  The batch accessors (`get_devices`, `Device.get_sensors`) are
total functions into lists in this development, so they can raise no
not-found error at all. -/
theorem C6_single_item_accessors (devices : List Device) (device : Device) (did sid : String) :
    (get_device devices did = .error "device not found" ↔ ∀ d ∈ devices, d.id ≠ did)
    ∧ (∀ d, get_device devices did = .ok d → d ∈ devices ∧ d.id = did)
    ∧ ((∃ d ∈ devices, d.id = did) → ∃ d, get_device devices did = .ok d)
    ∧ (device.get_sensor sid = .error "sensor not found" ↔ ∀ s ∈ device.sensors, s.id ≠ sid)
    ∧ (∀ s, device.get_sensor sid = .ok s → s ∈ device.sensors ∧ s.id = sid)
    ∧ ((∃ s ∈ device.sensors, s.id = sid) → ∃ s, device.get_sensor sid = .ok s) := by
  obtain ⟨h₁, h₂, h₃⟩ := get_device_spec devices did
  obtain ⟨h₄, h₅, h₆⟩ := get_sensor_spec device sid
  exact ⟨h₁, h₂, h₃, h₄, h₅, h₆⟩

/-- Closed witness for C6: on the two-device catalog, an unknown id raises
the not-found error, and a present id returns the matching device. -/
theorem C6_single_item_accessors_witness :
    get_device catalogW "nope" = .error "device not found"
      ∧ (deviceA ∈ catalogW ∧ deviceA.id = "A@x")
      ∧ deviceA.get_sensor "missing" = .error "sensor not found" := by
  refine ⟨?_, ?_, ?_⟩
  · exact (C6_single_item_accessors catalogW deviceA "nope" "e1").1.mpr (by decide)
  · exact (C6_single_item_accessors catalogW deviceA "A@x" "e1").2.1 deviceA rfl
  · exact (C6_single_item_accessors catalogW deviceA "A@x" "missing").2.2.2.1.mpr (by decide)

/-- Helper: with the first record of length `k + 1`, the value columns
number exactly `k`. -/
theorem length_value_columns (sensor_id : String) (r : SensorRecord) (rest : SensorData)
    (k : Nat) (hr : r.length = k + 1) :
    ((get_column_headers sensor_id (r :: rest)).drop 1).length = k := by
  have hk : r.length - 1 = k := by omega
  by_cases hk₁ : k = 1
  · subst hk₁
    simp [get_column_headers, hk]
  · simp [get_column_headers, hk, hk₁]

/-- Helper: the length of a `flatMap` whose pieces all have length `n`. -/
theorem length_flatMap_const {α β : Type} (l : List α) (f : α → List β) (n : Nat)
    (h : ∀ a ∈ l, (f a).length = n) : (l.flatMap f).length = l.length * n := by
  induction l with
  | nil => simp
  | cons a t ih =>
      rw [List.flatMap_cons, List.length_append, h a (List.mem_cons_self a t),
        ih (fun b hb => h b (List.mem_cons_of_mem a hb)), List.length_cons,
        Nat.succ_mul, Nat.add_comm]

/-- Helper: a `flatMap` over `enum` that only uses the entries equals the
`flatMap` over the list itself. -/
theorem flatMap_enum_snd {α β : Type} (l : List α) (g : α → List β) :
    l.enum.flatMap (fun p => g p.2) = l.flatMap g := by
  calc l.enum.flatMap (fun p => g p.2)
      = (l.enum.map Prod.snd).flatMap g := (List.flatMap_map Prod.snd g l.enum).symm
    _ = l.flatMap g := by rw [List.enum_map_snd]

/-- C1: for a sensor whose records all have uniform arity `k ≥ 1`, the
reshaping produces exactly `k` value columns, its melted frame has exactly
`(number of records) × k` rows, and the rows correspond one-to-one to the
(value column, record timestamp) pairs in column-major order. -/
theorem C1_uniform_arity_counts (device_id sensor_id : String) (sensor_data : SensorData)
    (k : Nat) (hne : sensor_data ≠ []) (_hk : 1 ≤ k)
    (harity : ∀ r ∈ sensor_data, r.length = k + 1) :
    ((get_column_headers sensor_id sensor_data).drop 1).length = k
    ∧ (melt_frame device_id sensor_id sensor_data).length = sensor_data.length * k
    ∧ (melt_frame device_id sensor_id sensor_data).map (fun row => (row.sensor, row.datetime))
        = ((get_column_headers sensor_id sensor_data).drop 1).flatMap
            (fun c => sensor_data.map (fun r => (c, r.headD 0))) := by
  obtain ⟨r, rest, rfl⟩ : ∃ r rest, sensor_data = r :: rest := by
    cases sensor_data with
    | nil => exact absurd rfl hne
    | cons r rest => exact ⟨r, rest, rfl⟩
  have hcols := length_value_columns sensor_id r rest k
    (harity r (List.mem_cons_self r rest))
  refine ⟨hcols, ?_, ?_⟩
  · show (((get_column_headers sensor_id (r :: rest)).drop 1).enum.flatMap
        (fun ic => (r :: rest).map (fun record =>
          ({ device := device_id, sensor := ic.2, datetime := record.headD 0,
             value := record.getD (ic.1 + 1) 0 } : Row)))).length
      = (r :: rest).length * k
    rw [length_flatMap_const _ _ (r :: rest).length (fun a _ => by simp),
      List.enum_length, hcols, Nat.mul_comm]
  · show (((get_column_headers sensor_id (r :: rest)).drop 1).enum.flatMap
        (fun ic => (r :: rest).map (fun record =>
          ({ device := device_id, sensor := ic.2, datetime := record.headD 0,
             value := record.getD (ic.1 + 1) 0 } : Row)))).map
            (fun row => (row.sensor, row.datetime))
      = ((get_column_headers sensor_id (r :: rest)).drop 1).flatMap
          (fun c => (r :: rest).map (fun record => (c, record.headD 0)))
    rw [List.map_flatMap]
    simp only [List.map_map, Function.comp]
    exact flatMap_enum_snd ((get_column_headers sensor_id (r :: rest)).drop 1)
      (fun c => (r :: rest).map (fun record => (c, record.headD 0)))

/-- Closed witness for C1 on a three-phase sensor with two records. -/
theorem C1_uniform_arity_counts_witness :
    ((get_column_headers "p1" [[1000, 1, 2, 3], [2000, 4, 5, 6]]).drop 1).length = 3
      ∧ (melt_frame "A@x" "p1" [[1000, 1, 2, 3], [2000, 4, 5, 6]]).length = 6 := by
  have h := C1_uniform_arity_counts "A@x" "p1" [[1000, 1, 2, 3], [2000, 4, 5, 6]] 3
    (by decide) (by decide) (by decide)
  exact ⟨h.1, h.2.1⟩

/-- Helper: `loop_through_sensors` yields nothing exactly when every record
list in the response is empty. -/
theorem loop_empty_iff (resp : Response) :
    loop_through_sensors resp = [] ↔ ∀ p ∈ resp, ∀ q ∈ p.2, q.2 = [] := by
  unfold loop_through_sensors
  rw [List.flatMap_eq_nil_iff]
  constructor
  · intro h p hp q hq
    have h₂ := h p hp
    rw [List.filterMap_eq_nil_iff] at h₂
    have h₃ := h₂ q hq
    by_cases hqe : q.2.isEmpty
    · exact List.isEmpty_iff.mp hqe
    · simp [hqe] at h₃
  · intro h p hp
    rw [List.filterMap_eq_nil_iff]
    intro q hq
    simp [h p hp q hq]

/-- C3: on a non-empty sensor collection, `get_data` raises the no-data
`KeyError` exactly when every (device, sensor) pair of the response has an
empty record list; any sensor with data prevents the error, and a sensor
with an empty list is merely skipped. -/
theorem C3_no_data_iff (sensors : List Sensor) (fetch : String → Int → Int → Response)
    (from_date to_date : Int) (hne : sensors ≠ []) :
    SensorList.get_data sensors fetch from_date to_date = .error .noData
      ↔ ∀ p ∈ fetch (data_path sensors) from_date to_date, ∀ q ∈ p.2, q.2 = [] := by
  obtain ⟨s, rest, rfl⟩ : ∃ s rest, sensors = s :: rest := by
    cases sensors with
    | nil => exact absurd rfl hne
    | cons s rest => exact ⟨s, rest, rfl⟩
  show reshape (fetch (data_path (s :: rest)) from_date to_date) = _ ↔ _
  set resp := fetch (data_path (s :: rest)) from_date to_date with hresp
  rw [← loop_empty_iff resp]
  constructor
  · intro h
    by_contra hl
    have hm : (loop_through_sensors resp).map (fun t => melt_frame t.1 t.2.1 t.2.2) ≠ [] := by
      simpa [List.map_eq_nil_iff] using hl
    have hE : ((loop_through_sensors resp).map
        (fun t => melt_frame t.1 t.2.1 t.2.2)).isEmpty = false := by
      simpa [List.isEmpty_iff] using hm
    simp [reshape, hE] at h
  · intro h
    have hE : ((loop_through_sensors resp).map
        (fun t => melt_frame t.1 t.2.1 t.2.2)).isEmpty = true := by
      simp [h]
    simp [reshape, hE]

/-- Closed witness for C3: a response whose only sensor has an empty record
list raises the no-data error. -/
theorem C3_no_data_iff_witness :
    SensorList.get_data [sensorE1] fetchEmpty 0 0 = .error .noData :=
  (C3_no_data_iff [sensorE1] fetchEmpty 0 0 (by decide)).mpr (by decide)

/-- Helper: when, per (device, output column) pair, the timestamps feeding
that column are duplicate-free, the full `(device, sensor, datetime)` index
list is duplicate-free. -/
theorem nodup_of_column_timestamps (rows : List Row)
    (h : ∀ d c, (column_timestamps rows d c).Nodup) :
    (rows.map indexTriple).Nodup := by
  induction rows with
  | nil => simp
  | cons r rest ih =>
      rw [List.map_cons, List.nodup_cons]
      constructor
      · intro hmem
        rcases List.mem_map.mp hmem with ⟨x, hx, hxr⟩
        have hfields : x.device = r.device ∧ x.sensor = r.sensor ∧ x.datetime = r.datetime := by
          simpa [indexTriple, Prod.ext_iff] using hxr
        have hdc := h r.device r.sensor
        have hcons : column_timestamps (r :: rest) r.device r.sensor
            = r.datetime :: column_timestamps rest r.device r.sensor := by
          unfold column_timestamps
          rw [List.filterMap_cons]
          simp
        rw [hcons, List.nodup_cons] at hdc
        apply hdc.1
        unfold column_timestamps
        rw [List.mem_filterMap]
        refine ⟨x, hx, ?_⟩
        rw [if_pos ⟨hfields.1, hfields.2.1⟩, hfields.2.2]
      · apply ih
        intro d c
        apply List.Nodup.sublist ?_ (h d c)
        unfold column_timestamps
        rw [List.filterMap_cons]
        cases hf : (if r.device = d ∧ r.sensor = c then some r.datetime else none) with
        | none => exact List.Sublist.refl _
        | some t => exact List.sublist_cons_self t _

/-- C4: whenever `get_data` returns a table, the table is sorted ascending
by the composite (device, sensor column, timestamp) key — unconditionally;
and if, additionally, the input timestamps feeding each (device, sensor
column) pair are unique, the index contains no duplicate (device, sensor
column, timestamp) triples. -/
theorem C4_sorted_nodup (sensors : List Sensor) (fetch : String → Int → Int → Response)
    (from_date to_date : Int) (tbl : List Row)
    (hok : SensorList.get_data sensors fetch from_date to_date = .ok tbl) :
    List.Sorted rowLE tbl
    ∧ ((∀ d c, (column_timestamps
          (raw_rows (fetch (data_path sensors) from_date to_date)) d c).Nodup)
        → (tbl.map indexTriple).Nodup) := by
  obtain ⟨s, rest, rfl⟩ : ∃ s rest, sensors = s :: rest := by
    cases sensors with
    | nil => simp [SensorList.get_data] at hok
    | cons s rest => exact ⟨s, rest, rfl⟩
  have hok₂ : reshape (fetch (data_path (s :: rest)) from_date to_date) = .ok tbl := hok
  set resp := fetch (data_path (s :: rest)) from_date to_date with hresp
  have htbl : tbl = List.insertionSort rowLE (raw_rows resp) := by
    cases hE : ((loop_through_sensors resp).map
        (fun t => melt_frame t.1 t.2.1 t.2.2)).isEmpty with
    | true => simp [reshape, hE] at hok₂
    | false =>
        simp only [reshape, hE, Bool.false_eq_true, if_false, Except.ok.injEq] at hok₂
        rw [← hok₂]
        rfl
  subst htbl
  constructor
  · exact List.sorted_insertionSort rowLE (raw_rows resp)
  · intro huniq
    have hperm : List.Perm ((List.insertionSort rowLE (raw_rows resp)).map indexTriple)
        ((raw_rows resp).map indexTriple) :=
      (List.perm_insertionSort rowLE (raw_rows resp)).map indexTriple
    exact hperm.nodup_iff.mpr (nodup_of_column_timestamps (raw_rows resp) huniq)

/-- Closed witness for C4 on a one-record response: the resulting one-row
table is sorted and its index has no duplicates. -/
theorem C4_sorted_nodup_witness :
    List.Sorted rowLE [Row.mk "A@x" "e1" 1000 5]
      ∧ ([Row.mk "A@x" "e1" 1000 5].map indexTriple).Nodup := by
  have h := C4_sorted_nodup [sensorE1] fetchOne 0 0 [Row.mk "A@x" "e1" 1000 5] rfl
  refine ⟨h.1, h.2 ?_⟩
  intro d c
  have hr : raw_rows (fetchOne (data_path [sensorE1]) 0 0) = [Row.mk "A@x" "e1" 1000 5] := rfl
  rw [hr]
  unfold column_timestamps
  rw [List.filterMap_cons]
  by_cases hdc : (Row.mk "A@x" "e1" 1000 5).device = d ∧ (Row.mk "A@x" "e1" 1000 5).sensor = c
  · simp [← hdc.1, ← hdc.2]
  · simp [hdc]

end Rayleigh
